import Mathlib

/-!
Verification development for the Dashboard repository (a small financial
record keeper).  The development embeds the payment-status reconciler of the
People view, the paid and unpaid summary counts of the Overview view, the
expense-number generator of the Expenses view, and a model of the generic
collection sync hook, and proves the stated properties about them.
-/

set_option maxHeartbeats 1000000

namespace Dashboard

/-- Economic-status enum `SituacionEconomica` from src/lib/types.ts:
the values Pobre and Extremo Pobre. -/
inductive SituacionEconomica where
  | pobre
  | extremoPobre
deriving DecidableEq

/-- Tri-state payment classification computed by the reconciler
(Pagado, Exonerado, No Pagado). -/
inductive PaymentStatus where
  | pagado
  | exonerado
  | noPagado
deriving DecidableEq

/-- Member record `SocioTitular` from src/lib/types.ts.  Nullable columns are
Option; `dni` is `string | null` and `situacionEconomica` is
`SituacionEconomica | null`. -/
structure SocioTitular where
  id : String
  nombres : String
  apellidoMaterno : String
  apellidoPaterno : String
  dni : Option String
  created_at : Option String
  ubicacionReferencia : Option String
  direccionDNI : Option String
  edad : Option Int
  distritoDNI : Option String
  provinciaDNI : Option String
  regionDNI : Option String
  fechaNacimiento : Option String
  celular : Option String
  direccionVivienda : Option String
  mz : Option String
  lote : Option String
  localidad : Option String
  distritoVivienda : Option String
  provinciaVivienda : Option String
  regionVivienda : Option String
  situacionEconomica : Option SituacionEconomica
  genero : Option String
deriving DecidableEq

/-- Income record `Ingreso` from src/lib/types.ts; `dni` is a non-null text
column (it may still hold the empty string).  The numeric `amount` is carried
as an integer; no claim depends on its arithmetic. -/
structure Ingreso where
  id : Nat
  receipt_number : String
  dni : String
  full_name : String
  amount : Int
  account : String
  date : String
  transaction_type : String
  created_at : String
deriving DecidableEq

/-- Expense record `Gasto` from src/lib/types.ts; `numero_gasto` is a nullable
text column. -/
structure Gasto where
  id : String
  amount : Int
  account : String
  date : String
  category : String
  sub_category : Option String
  description : Option String
  created_at : String
  numero_gasto : Option String
  colaborador_id : Option String
deriving DecidableEq

/-- JavaScript truthiness of a `string | null` value: null and the empty
string are falsy, every other string is truthy. -/
def strTruthy : Option String → Bool
  | none => false
  | some s => !(s == "")

/-- `set.has(x)` on a set of strings queried with a `string | null` value;
`has(null)` is false.  The JavaScript `Set` is modelled by the list of its
elements because the code only ever queries membership. -/
def setHas (paid : List String) : Option String → Bool
  | none => false
  | some d => paid.contains d

/-- Output row type `SocioTitularWithPaymentStatus` of the People view: the
object spread over socio keeps every member field and adds the derived
status, modelled as the member paired with the status. -/
structure SocioTitularWithPaymentStatus where
  socio : SocioTitular
  paymentStatus : PaymentStatus
deriving DecidableEq

namespace People

/-- Step 1 of the reconciler, People view (src/unnamed/part_003 line 328):
`new Set(ingresosData.map(ingreso => ingreso.dni).filter(Boolean))`.
The falsy filter drops exactly the empty string from the mapped dni list. -/
def paidDnis (ingresosData : List Ingreso) : List String :=
  (ingresosData.map Ingreso.dni).filter (fun s => !(s == ""))

/-- Per-member branch of `processedSocioTitulares`
(src/unnamed/part_003 lines 331 to 337): Extremo Pobre is Exonerado;
otherwise a truthy dni with situacion Pobre and a membership hit is Pagado;
everything else keeps the initial No Pagado. -/
def paymentStatusOf (paid : List String) (socio : SocioTitular) : PaymentStatus :=
  if socio.situacionEconomica == some SituacionEconomica.extremoPobre then
    PaymentStatus.exonerado
  else if strTruthy socio.dni
      && socio.situacionEconomica == some SituacionEconomica.pobre
      && setHas paid socio.dni then
    PaymentStatus.pagado
  else
    PaymentStatus.noPagado

/-- The reconciler `processedSocioTitulares` of the People view
(src/unnamed/part_003 lines 325 to 341): map each member to itself plus its
derived payment status, joining on the dni set built from the income
snapshot. -/
def processedSocioTitulares (socioTitularesData : List SocioTitular)
    (ingresosData : List Ingreso) : List SocioTitularWithPaymentStatus :=
  let paid := paidDnis ingresosData
  socioTitularesData.map (fun socio => ⟨socio, paymentStatusOf paid socio⟩)

/-- Refinement-side predicate, following the words of the spec (section 4.2,
rule 2): economic status is low-income AND the member natural-key identifier
is non-empty and present in the income-identifier set. -/
def specLowIncomePaid (ingresosData : List Ingreso) (socio : SocioTitular) : Bool :=
  socio.situacionEconomica == some SituacionEconomica.pobre
    && (match socio.dni with
        | some d => !(d == "") && (paidDnis ingresosData).contains d
        | none => false)

end People

namespace Overview

/-- The dni lookup set of the Overview view (src/unnamed/part_004 line 94):
`new Set(ingresosData.map(ingreso => ingreso.dni))` — note there is no
falsy filter here, unlike the People view. -/
def paidDnis (ingresosData : List Ingreso) : List String :=
  ingresosData.map Ingreso.dni

/-- `shouldPaySocioTitulares` (src/unnamed/part_004 lines 96 to 99): the
members whose situacion is Pobre or null. -/
def shouldPaySocioTitulares (socioTitularesData : List SocioTitular) :
    List SocioTitular :=
  socioTitularesData.filter (fun socio =>
    socio.situacionEconomica == some SituacionEconomica.pobre
      || socio.situacionEconomica == none)

/-- `paidSocioTitularesCount` (src/unnamed/part_004 lines 101 to 104): among
should-pay members, count those with a truthy dni found in the dni set; the
guard returns 0 on an empty should-pay list. -/
def paidSocioTitularesCount (socioTitularesData : List SocioTitular)
    (ingresosData : List Ingreso) : Nat :=
  let shouldPay := shouldPaySocioTitulares socioTitularesData
  if shouldPay.length == 0 then 0
  else (shouldPay.filter (fun socio =>
    strTruthy socio.dni && setHas (paidDnis ingresosData) socio.dni)).length

/-- `unpaidSocioTitularesCount` (src/unnamed/part_004 lines 106 to 109):
among should-pay members, count those with a truthy dni not found in the dni
set. -/
def unpaidSocioTitularesCount (socioTitularesData : List SocioTitular)
    (ingresosData : List Ingreso) : Nat :=
  let shouldPay := shouldPaySocioTitulares socioTitularesData
  if shouldPay.length == 0 then 0
  else (shouldPay.filter (fun socio =>
    strTruthy socio.dni && !setHas (paidDnis ingresosData) socio.dni)).length

end Overview

namespace Expenses

/-- JavaScript `s.startsWith(p)`, computed on the character lists of the two
strings. -/
def strStartsWith (s p : String) : Bool :=
  p.data.isPrefixOf s.data

/-- Whitespace characters skipped by the JavaScript `parseInt` before
parsing. -/
def isJsSpace (c : Char) : Bool :=
  c == ' ' || c == '\t' || c == '\n' || c == '\r' || c == '\x0b' || c == '\x0c'

/-- Value of a list of decimal digit characters. -/
def digitsVal (ds : List Char) : Nat :=
  ds.foldl (fun n c => 10 * n + (c.toNat - '0'.toNat)) 0

/-- JavaScript `parseInt(s, 10)`: skip leading whitespace, read an optional
sign, then take the longest prefix of decimal digits; the result is NaN
(here: none) when no digit follows. -/
def jsParseInt (s : String) : Option Int :=
  let cs := s.data.dropWhile isJsSpace
  let signAndRest : Int × List Char :=
    match cs with
    | '-' :: rest => (-1, rest)
    | '+' :: rest => (1, rest)
    | _ => (1, cs)
  let ds := signAndRest.2.takeWhile Char.isDigit
  if ds.isEmpty then none
  else some (signAndRest.1 * (digitsVal ds : Int))

/-- JavaScript padStart with width 3 and the zero digit: left-pad the
rendered number with zeros to at least three characters. -/
def padStart3 (s : String) : String :=
  if s.length ≥ 3 then s
  else String.mk (List.replicate (3 - s.length) '0') ++ s

/-- One step of the `forEach` accumulation inside `generateNextNumeroGasto`
(src/unnamed/part_002 lines 718 to 726): a truthy `numero_gasto` starting
with GA whose remainder parseInts to a number larger than the accumulator
replaces it. -/
def gaStep (acc : Int) (expense : Gasto) : Int :=
  match expense.numero_gasto with
  | some ng =>
      if !(ng == "") && strStartsWith ng "GA" then
        match jsParseInt (ng.drop 2) with
        | some numPart => if numPart > acc then numPart else acc
        | none => acc
      else acc
  | none => acc

/-- `generateNextNumeroGasto` (src/unnamed/part_002 lines 715 to 731):
accumulate the maximum valid GA suffix starting from 0, add one, and render
as GA plus the zero-padded number. -/
def generateNextNumeroGasto (expenses : List Gasto) : String :=
  let maxNumber := expenses.foldl gaStep 0
  let nextNumber := maxNumber + 1
  "GA" ++ padStart3 (toString nextNumber)

/-- The valid GA suffix of an expense, when its `numero_gasto` is a truthy
string starting with GA whose remainder parseInts to a number. -/
def gaSuffix? (expense : Gasto) : Option Int :=
  match expense.numero_gasto with
  | some ng =>
      if !(ng == "") && strStartsWith ng "GA" then jsParseInt (ng.drop 2)
      else none
  | none => none

/-- The maximum valid GA suffix of an expense list, taken as at least 0 (also
0 when no valid entry exists). -/
def maxGaSuffix (expenses : List Gasto) : Int :=
  (expenses.filterMap gaSuffix?).foldl max 0

end Expenses

namespace Hook

/-- An equality filter: a mapping from field name to required value, rendered
as an association list. -/
abbrev Filters := List (String × String)

/-- Modelled from the spec: the implementation of the useSupabaseData hook is
not under src (only its call sites are).  Per spec section 4.1 the hook keeps
the currently active filters and the cached record list. -/
structure HookState (α : Type) where
  activeFilters : Filters
  records : List α
deriving DecidableEq

/-- Modelled from the spec: the events a hook instance observes — a
`setFilters` call replacing the active filters (and issuing a fetch), and the
arrival of a fetch response carrying the filter value that was active at send
time as its tag. -/
inductive HookEvent (α : Type) where
  | setFilters (fs : Filters)
  | arrive (tag : Filters) (result : List α)
deriving DecidableEq

/-- Modelled from the spec (section 4.1 ordering guarantee): tag every
outgoing fetch with the filter value active at send time; on completion,
apply the result only if that filter value still equals the currently active
filter. -/
def hookStep {α : Type} (s : HookState α) (ev : HookEvent α) : HookState α :=
  match ev with
  | HookEvent.setFilters fs => { s with activeFilters := fs }
  | HookEvent.arrive tag result =>
      if tag = s.activeFilters then { s with records := result } else s

/-- Modelled from the spec: running one hook instance (whose implementation
is not under src) over a sequence of interleaved events. -/
def hookRun {α : Type} (s : HookState α) (evs : List (HookEvent α)) :
    HookState α :=
  evs.foldl hookStep s

/-- Modelled from the spec: the typed error taxonomy of spec section 7; the
hook implementation that raises these is not under src. -/
inductive ErrorKind where
  | validationError
  | notFound
  | uniquenessViolation
  | transportError
  | enrichmentUnavailable
deriving DecidableEq

/-- Modelled from the spec: the hook cache plus the polled `lastError` value.
The hook implementation is not under src; per spec sections 4.1 and 7 every
operation is a total function into this state, so a remote failure is a
value, never an exception crossing the hook boundary. -/
structure HookData (α : Type) where
  records : List α
  lastError : Option ErrorKind
deriving DecidableEq

/-- Modelled from the spec: applying a fetch outcome — on success the cache
is replaced, on failure `records` keeps its last-known value and `lastError`
is set to the typed error. -/
def applyFetchResult {α : Type} (s : HookData α)
    (remote : Except ErrorKind (List α)) : HookData α :=
  match remote with
  | Except.ok rs => { records := rs, lastError := none }
  | Except.error e => { s with lastError := some e }

/-- Modelled from the spec: applying a mutation outcome (create, update or
delete followed by its refetch) — on success the refetched list replaces the
cache and the server record is returned; on failure the cache is unchanged,
no record is returned, and `lastError` carries the typed error. -/
def applyMutationResult {α : Type} (s : HookData α)
    (remote : Except ErrorKind α) (refetched : List α) :
    HookData α × Option α :=
  match remote with
  | Except.ok r => ({ records := refetched, lastError := none }, some r)
  | Except.error e => ({ s with lastError := some e }, none)

end Hook

/-! Concrete records used by witnesses and counterexamples. -/

/-- A member with every nullable field null. -/
def socioBase : SocioTitular :=
  { id := "socio-1", nombres := "Ana", apellidoMaterno := "Q", apellidoPaterno := "P",
    dni := none, created_at := none, ubicacionReferencia := none,
    direccionDNI := none, edad := none, distritoDNI := none,
    provinciaDNI := none, regionDNI := none, fechaNacimiento := none,
    celular := none, direccionVivienda := none, mz := none, lote := none,
    localidad := none, distritoVivienda := none, provinciaVivienda := none,
    regionVivienda := none, situacionEconomica := none, genero := none }

/-- An income event with dni "12345678". -/
def ingresoBase : Ingreso :=
  { id := 1, receipt_number := "001-2024", dni := "12345678",
    full_name := "Ana Q P", amount := 50, account := "Caja",
    date := "2024-01-01", transaction_type := "Ingreso",
    created_at := "2024-01-01" }

/-- An expense with no expense number. -/
def gastoBase : Gasto :=
  { id := "g1", amount := 10, account := "Caja", date := "2024-01-01",
    category := "Otros", sub_category := none, description := none,
    created_at := "2024-01-01", numero_gasto := none, colaborador_id := none }

/-- A member with situacion Extremo Pobre and a dni matching an income
event. -/
def socioExtremo : SocioTitular :=
  { socioBase with
    dni := some "08112233",
    situacionEconomica := some SituacionEconomica.extremoPobre }

/-- A member with situacion Pobre and dni "12345678". -/
def socioPobreConDni : SocioTitular :=
  { socioBase with
    dni := some "12345678",
    situacionEconomica := some SituacionEconomica.pobre }

/-- A member with situacion Pobre and no dni. -/
def socioPobreSinDni : SocioTitular :=
  { socioBase with situacionEconomica := some SituacionEconomica.pobre }

/-- An income event whose dni is the empty string. -/
def ingresoVacio : Ingreso := { ingresoBase with id := 2, dni := "" }

/-- An income event with dni "08112233". -/
def ingreso08 : Ingreso := { ingresoBase with id := 3, dni := "08112233" }

/-! Helper lemmas shared by the claim proofs. -/

theorem processed_getElem (ms : List SocioTitular) (es : List Ingreso) (i : Nat) :
    (People.processedSocioTitulares ms es)[i]? =
      (ms[i]?).map (fun socio =>
        ⟨socio, People.paymentStatusOf (People.paidDnis es) socio⟩) := by
  simp [People.processedSocioTitulares, List.getElem?_map]

theorem paymentStatusOf_of_falsy (paid : List String) (socio : SocioTitular)
    (hts : strTruthy socio.dni = false) :
    People.paymentStatusOf paid socio =
      (if socio.situacionEconomica = some SituacionEconomica.extremoPobre
       then PaymentStatus.exonerado else PaymentStatus.noPagado) := by
  by_cases hEP : socio.situacionEconomica = some SituacionEconomica.extremoPobre
  · simp [People.paymentStatusOf, hEP]
  · simp [People.paymentStatusOf, hEP, hts]

theorem paymentStatusOf_eq_spec (es : List Ingreso) (socio : SocioTitular)
    (hne : socio.situacionEconomica ≠ some SituacionEconomica.extremoPobre) :
    People.paymentStatusOf (People.paidDnis es) socio =
      (if People.specLowIncomePaid es socio then PaymentStatus.pagado
       else PaymentStatus.noPagado) := by
  cases hd : socio.dni with
  | none =>
      simp [People.paymentStatusOf, People.specLowIncomePaid, setHas, strTruthy,
        hd, hne]
  | some d =>
      cases h1 : (socio.situacionEconomica == some SituacionEconomica.pobre) <;>
        cases h2 : (d == "") <;>
          cases h3 : (People.paidDnis es).contains d <;>
            simp [People.paymentStatusOf, People.specLowIncomePaid, setHas,
              strTruthy, hd, hne, h1, h2, h3]

/-- C2: a member whose economic status is Extremo Pobre is assigned Exonerado
by the reconciler, whatever the income snapshot contains. -/
theorem claim_C2_extreme_low_income_exempt
    (ms : List SocioTitular) (es : List Ingreso) (i : Nat)
    (socio : SocioTitular) (hi : ms[i]? = some socio)
    (hEP : socio.situacionEconomica = some SituacionEconomica.extremoPobre) :
    (People.processedSocioTitulares ms es)[i]? =
      some ⟨socio, PaymentStatus.exonerado⟩ := by
  rw [processed_getElem, hi]
  simp [People.paymentStatusOf, hEP]

/-- Witness for C2: the Extremo Pobre member with a matching income event is
still Exonerado, not Pagado. -/
theorem claim_C2_witness :
    (People.processedSocioTitulares [socioExtremo] [ingreso08])[0]? =
      some ⟨socioExtremo, PaymentStatus.exonerado⟩ :=
  claim_C2_extreme_low_income_exempt [socioExtremo] [ingreso08] 0 socioExtremo
    (by decide) (by decide)

/-- C3: a member whose dni is null or empty is never assigned Pagado, for any
income snapshot (in particular one holding an event with an empty dni), and
when such a member is not Extremo Pobre it is assigned No Pagado. -/
theorem claim_C3_absent_dni_never_paid
    (ms : List SocioTitular) (es : List Ingreso) (i : Nat)
    (socio : SocioTitular) (hi : ms[i]? = some socio)
    (hdni : socio.dni = none ∨ socio.dni = some "") :
    (∀ p, (People.processedSocioTitulares ms es)[i]? = some p →
        p.paymentStatus ≠ PaymentStatus.pagado)
    ∧ (socio.situacionEconomica ≠ some SituacionEconomica.extremoPobre →
        (People.processedSocioTitulares ms es)[i]? =
          some ⟨socio, PaymentStatus.noPagado⟩) := by
  have hts : strTruthy socio.dni = false := by
    rcases hdni with h | h <;> simp [strTruthy, h]
  constructor
  · intro p hp
    rw [processed_getElem, hi] at hp
    simp only [Option.map_some'] at hp
    injection hp with hp
    subst hp
    rw [paymentStatusOf_of_falsy _ _ hts]
    by_cases hEP : socio.situacionEconomica = some SituacionEconomica.extremoPobre <;>
      simp [hEP]
  · intro hEP
    rw [processed_getElem, hi]
    simp [paymentStatusOf_of_falsy _ _ hts, hEP]

/-- Witness for C3: the Pobre member without dni is No Pagado even though the
income snapshot holds an event whose dni is the empty string. -/
theorem claim_C3_witness :
    (People.processedSocioTitulares [socioPobreSinDni] [ingresoVacio])[0]? =
      some ⟨socioPobreSinDni, PaymentStatus.noPagado⟩ :=
  (claim_C3_absent_dni_never_paid [socioPobreSinDni] [ingresoVacio] 0
    socioPobreSinDni rfl (Or.inl rfl)).2 (by decide)

/-- C5: for a member that is not Extremo Pobre, the reconciler assigns Pagado
exactly when the situacion is Pobre and the dni is non-empty and present in
the income-identifier set, and No Pagado in every other case. -/
theorem claim_C5_low_income_rule
    (ms : List SocioTitular) (es : List Ingreso) (i : Nat)
    (socio : SocioTitular) (hi : ms[i]? = some socio)
    (hne : socio.situacionEconomica ≠ some SituacionEconomica.extremoPobre) :
    (People.processedSocioTitulares ms es)[i]? =
      some ⟨socio,
        if People.specLowIncomePaid es socio then PaymentStatus.pagado
        else PaymentStatus.noPagado⟩ := by
  rw [processed_getElem, hi, Option.map_some', paymentStatusOf_eq_spec es socio hne]

/-- Witness for C5: the Pobre member with dni "12345678" and a matching
income event is Pagado. -/
theorem claim_C5_witness :
    (People.processedSocioTitulares [socioPobreConDni] [ingresoBase])[0]? =
      some ⟨socioPobreConDni,
        if People.specLowIncomePaid [ingresoBase] socioPobreConDni then
          PaymentStatus.pagado
        else PaymentStatus.noPagado⟩ :=
  claim_C5_low_income_rule [socioPobreConDni] [ingresoBase] 0 socioPobreConDni
    rfl (by decide)

/-- Counterexample for C4: the Overview implementation of the lookup set
(src/unnamed/part_004 line 94) has no falsy filter, so the set built from an
income event with an empty dni contains the empty string, refuting the claim
that every implementation excludes it. -/
theorem claim_C4_counterexample : "" ∈ Overview.paidDnis [ingresoVacio] := by
  decide

/-- C4 amended: the People implementation of the lookup set does exclude
absent and empty identifiers — every element of the set is a non-empty
string; the Overview implementation omits the filter (see the
counterexample), though members with an absent or empty dni are still never
counted as paid there. -/
theorem claim_C4_amended_people_set_excludes_empty
    (es : List Ingreso) (s : String) (hs : s ∈ People.paidDnis es) :
    s ≠ "" := by
  unfold People.paidDnis at hs
  rw [List.mem_filter] at hs
  simpa using hs.2

/-- Witness for the amended C4 at a concrete snapshot. -/
theorem claim_C4_witness : ("12345678" : String) ≠ "" :=
  claim_C4_amended_people_set_excludes_empty [ingresoBase] "12345678" (by decide)

theorem mem_paidDnis_append (es : List Ingreso) (x : Ingreso)
    (hx : x.dni ∈ es.map Ingreso.dni) (d : String) :
    d ∈ People.paidDnis (es ++ [x]) ↔ d ∈ People.paidDnis es := by
  unfold People.paidDnis
  simp only [List.map_append, List.filter_append, List.mem_append,
    List.mem_filter]
  constructor
  · rintro (h | h)
    · exact h
    · rcases h with ⟨hmem, hne⟩
      have hd : d = x.dni := by simpa using hmem
      exact ⟨hd ▸ hx, hne⟩
  · intro h
    exact Or.inl h

theorem setHas_congr (l1 l2 : List String)
    (h : ∀ d, d ∈ l1 ↔ d ∈ l2) (o : Option String) :
    setHas l1 o = setHas l2 o := by
  cases o with
  | none => rfl
  | some d =>
      simp only [setHas]
      by_cases hd : d ∈ l2
      · have h1 := (h d).2 hd
        simp [h1, hd]
      · have h1 : d ∉ l1 := fun hx => hd ((h d).1 hx)
        simp [h1, hd]

theorem paymentStatusOf_congr (l1 l2 : List String)
    (h : ∀ d, d ∈ l1 ↔ d ∈ l2) (socio : SocioTitular) :
    People.paymentStatusOf l1 socio = People.paymentStatusOf l2 socio := by
  unfold People.paymentStatusOf
  rw [setHas_congr l1 l2 h]

/-- C7: appending an income event whose dni already occurs among the dni
values of the snapshot leaves the reconciler output unchanged for every
member — the join is a membership test, not a count. -/
theorem claim_C7_multiplicity_insensitive
    (ms : List SocioTitular) (es : List Ingreso) (x : Ingreso)
    (hx : x.dni ∈ es.map Ingreso.dni) :
    People.processedSocioTitulares ms (es ++ [x]) =
      People.processedSocioTitulares ms es := by
  unfold People.processedSocioTitulares
  refine List.map_congr_left fun socio _ => ?_
  rw [paymentStatusOf_congr _ _ (mem_paidDnis_append es x hx) socio]

/-- Witness for C7: duplicating the income event of the paid member changes
nothing. -/
theorem claim_C7_witness :
    People.processedSocioTitulares [socioPobreConDni]
        ([ingresoBase] ++ [{ ingresoBase with id := 9 }]) =
      People.processedSocioTitulares [socioPobreConDni] [ingresoBase] :=
  claim_C7_multiplicity_insensitive [socioPobreConDni] [ingresoBase]
    { ingresoBase with id := 9 } (by decide)

/-- C8: the reconciler output has exactly one row per member, in input order,
and each row is the corresponding member with every field unchanged plus the
derived payment status. -/
theorem claim_C8_frame_order_preserving
    (ms : List SocioTitular) (es : List Ingreso) :
    (People.processedSocioTitulares ms es).length = ms.length
    ∧ (People.processedSocioTitulares ms es).map
        SocioTitularWithPaymentStatus.socio = ms
    ∧ ∀ i : Nat, (People.processedSocioTitulares ms es)[i]? =
        (ms[i]?).map (fun socio =>
          ⟨socio, People.paymentStatusOf (People.paidDnis es) socio⟩) := by
  refine ⟨?_, ?_, fun i => processed_getElem ms es i⟩
  · simp [People.processedSocioTitulares]
  · simp only [People.processedSocioTitulares, List.map_map]
    have h : List.map
        (SocioTitularWithPaymentStatus.socio ∘ fun socio =>
          (⟨socio, People.paymentStatusOf (People.paidDnis es) socio⟩ :
            SocioTitularWithPaymentStatus)) ms = List.map id ms :=
      List.map_congr_left fun socio _ => rfl
    rw [h, List.map_id]

theorem if_gt_eq_max (a n : Int) : (if n > a then n else a) = max a n := by
  rcases le_or_lt n a with h | h
  · simp [not_lt.2 h, max_eq_left h]
  · simp [h, max_eq_right h.le]

theorem gaStep_eq (acc : Int) (e : Gasto) :
    Expenses.gaStep acc e =
      match Expenses.gaSuffix? e with
      | some n => max acc n
      | none => acc := by
  unfold Expenses.gaStep Expenses.gaSuffix?
  cases e.numero_gasto with
  | none => rfl
  | some ng =>
      cases hcond : (!(ng == "") && Expenses.strStartsWith ng "GA") with
      | false => simp [hcond]
      | true =>
          simp only [hcond, if_true]
          cases Expenses.jsParseInt (ng.drop 2) with
          | none => rfl
          | some n => simpa using if_gt_eq_max acc n

theorem foldl_gaStep (es : List Gasto) (acc : Int) :
    es.foldl Expenses.gaStep acc =
      (es.filterMap Expenses.gaSuffix?).foldl max acc := by
  induction es generalizing acc with
  | nil => rfl
  | cons e tl ih =>
      simp only [List.foldl_cons, List.filterMap_cons]
      cases h : Expenses.gaSuffix? e with
      | none => rw [gaStep_eq, h]; exact ih acc
      | some n => rw [gaStep_eq, h, List.foldl_cons]; exact ih (max acc n)

theorem le_foldl_max_init (l : List Int) (a : Int) : a ≤ l.foldl max a := by
  induction l generalizing a with
  | nil => exact le_refl a
  | cons x tl ih => exact le_trans (le_max_left a x) (ih (max a x))

theorem mem_le_foldl_max (l : List Int) (a x : Int) (hx : x ∈ l) :
    x ≤ l.foldl max a := by
  induction l generalizing a with
  | nil => cases hx
  | cons y tl ih =>
      rcases List.mem_cons.1 hx with h | h
      · subst h
        exact le_trans (le_max_right a x) (le_foldl_max_init tl (max a x))
      · exact ih (max a y) h

/-- A concrete expense with number GA007. -/
def gastoGA7 : Gasto := { gastoBase with numero_gasto := some "GA007" }

/-- C9: `generateNextNumeroGasto` is total on expense lists and returns GA
followed by one plus the maximum valid GA suffix (the suffix a parseInt with
radix 10 extracts from entries whose numero_gasto starts with GA; the
maximum is floored at 0, in particular it is 0 when no valid entry exists),
zero-padded to at least three digits; on the empty list it returns GA001,
and the fresh number strictly exceeds every valid existing GA suffix. -/
theorem claim_C9_generate_next_numero_gasto :
    (∀ expenses : List Gasto,
        Expenses.generateNextNumeroGasto expenses =
          "GA" ++ Expenses.padStart3 (toString (Expenses.maxGaSuffix expenses + 1)))
    ∧ Expenses.generateNextNumeroGasto [] = "GA001"
    ∧ (∀ expenses : List Gasto, ∀ g ∈ expenses, ∀ ng : String,
        g.numero_gasto = some ng → Expenses.strStartsWith ng "GA" = true →
        ∀ n : Int, Expenses.jsParseInt (ng.drop 2) = some n →
        n < Expenses.maxGaSuffix expenses + 1) := by
  refine ⟨?_, by decide, ?_⟩
  · intro expenses
    unfold Expenses.generateNextNumeroGasto Expenses.maxGaSuffix
    rw [foldl_gaStep]
  · intro expenses g hg ng hng hGA n hn
    have hne : (ng == "") = false := by
      rcases eq_or_ne ng "" with h | h
      · subst h
        exact absurd hGA (by decide)
      · exact beq_eq_false_iff_ne.mpr h
    have hsuf : Expenses.gaSuffix? g = some n := by
      unfold Expenses.gaSuffix?
      rw [hng]
      simp [hne, hGA, hn]
    have hmem : n ∈ expenses.filterMap Expenses.gaSuffix? :=
      List.mem_filterMap.2 ⟨g, hg, hsuf⟩
    have hle : n ≤ (expenses.filterMap Expenses.gaSuffix?).foldl max 0 :=
      mem_le_foldl_max _ 0 n hmem
    unfold Expenses.maxGaSuffix
    omega

/-- Witness for C9: with one expense numbered GA007, the valid suffix 7 is
strictly below the fresh number. -/
theorem claim_C9_witness : (7 : Int) < Expenses.maxGaSuffix [gastoGA7] + 1 :=
  claim_C9_generate_next_numero_gasto.2.2 [gastoGA7] gastoGA7
    (List.mem_singleton.mpr rfl) "GA007" rfl (by decide) 7 (by decide)

theorem filter_and_not_length {α : Type} (l : List α) (t h : α → Bool) :
    (l.filter fun a => t a && h a).length
      + (l.filter fun a => t a && !h a).length = (l.filter t).length := by
  induction l with
  | nil => rfl
  | cons a tl ih =>
      cases ht : t a <;> cases hh : h a <;>
        simp [List.filter_cons, ht, hh] <;> omega

/-- C10: in the Overview summary, the paid and unpaid counts together count
exactly the should-pay members (situacion Pobre or null) that have a truthy
dni, so each such member lands in exactly one of the two counts, a should-pay
member with a null or empty dni lands in neither, and on a concrete snapshot
with such a member the two counts sum to strictly less than the number of
should-pay members. -/
theorem claim_C10_overview_count_partition :
    (∀ (ms : List SocioTitular) (es : List Ingreso),
        Overview.paidSocioTitularesCount ms es
            + Overview.unpaidSocioTitularesCount ms es
          = ((Overview.shouldPaySocioTitulares ms).filter
              (fun socio => strTruthy socio.dni)).length)
    ∧ Overview.paidSocioTitularesCount [socioPobreSinDni] []
          + Overview.unpaidSocioTitularesCount [socioPobreSinDni] []
        < (Overview.shouldPaySocioTitulares [socioPobreSinDni]).length := by
  constructor
  · intro ms es
    unfold Overview.paidSocioTitularesCount Overview.unpaidSocioTitularesCount
    cases hz : ((Overview.shouldPaySocioTitulares ms).length == 0) with
    | true =>
        have hnil : Overview.shouldPaySocioTitulares ms = [] :=
          List.length_eq_zero.mp (by simpa using hz)
        simp [hnil]
    | false =>
        simp only [hz, Bool.false_eq_true, if_false]
        exact filter_and_not_length (Overview.shouldPaySocioTitulares ms) _ _
  · decide

/-- C1: in the modelled sync hook, a fetch issued under an old filter whose
response arrives after the response of the fetch issued by a later
`setFilters` call is discarded, so the cached records equal the result of the
newer fetch; in general an arriving result is applied only when its tag still
equals the active filters. -/
theorem claim_C1_stale_filter_discard {α : Type}
    (A B : Hook.Filters) (r1 r2 : List α) (s0 : Hook.HookState α)
    (hAB : A ≠ B) :
    (Hook.hookRun s0
        [Hook.HookEvent.setFilters A, Hook.HookEvent.setFilters B,
         Hook.HookEvent.arrive B r2, Hook.HookEvent.arrive A r1]).records = r2
    ∧ ∀ (s : Hook.HookState α) (tag : Hook.Filters) (r : List α),
        tag ≠ s.activeFilters →
        Hook.hookStep s (Hook.HookEvent.arrive tag r) = s := by
  constructor
  · simp [Hook.hookRun, Hook.hookStep, hAB]
  · intro s tag r h
    simp [Hook.hookStep, h]

/-- Witness for C1: a locality filter set in the People view, then cleared;
the stale response under the old filter does not overwrite the new result. -/
theorem claim_C1_witness :
    (Hook.hookRun (⟨[], []⟩ : Hook.HookState SocioTitular)
        [Hook.HookEvent.setFilters [("localidad", "X")],
         Hook.HookEvent.setFilters [],
         Hook.HookEvent.arrive [] [socioBase],
         Hook.HookEvent.arrive [("localidad", "X")] []]).records = [socioBase]
    ∧ Hook.hookStep (⟨[], [socioBase]⟩ : Hook.HookState SocioTitular)
        (Hook.HookEvent.arrive [("localidad", "X")] []) =
      (⟨[], [socioBase]⟩ : Hook.HookState SocioTitular) :=
  ⟨(claim_C1_stale_filter_discard [("localidad", "X")] [] [] [socioBase]
      ⟨[], []⟩ (by decide)).1,
   (claim_C1_stale_filter_discard [("localidad", "X")] [] [] [socioBase]
      ⟨[], []⟩ (by decide)).2 ⟨[], [socioBase]⟩ [("localidad", "X")] []
      (by decide)⟩

/-- C6: in the modelled hook every fetch and mutation outcome is handled by a
total function, so a remote failure never escapes as an exception; the
failure is surfaced in the polled `lastError` as a typed error, the cached
records keep their previous value, and a failed mutation returns no
record. -/
theorem claim_C6_failures_surfaced_as_error_values {α : Type}
    (s : Hook.HookData α) (e : Hook.ErrorKind) (refetched : List α) :
    (Hook.applyFetchResult s (Except.error e)).lastError = some e
    ∧ (Hook.applyFetchResult s (Except.error e)).records = s.records
    ∧ (Hook.applyMutationResult s (Except.error e) refetched).1.lastError = some e
    ∧ (Hook.applyMutationResult s (Except.error e) refetched).1.records = s.records
    ∧ (Hook.applyMutationResult s (Except.error e) refetched).2 = none := by
  refine ⟨rfl, rfl, rfl, rfl, rfl⟩

end Dashboard
